import Mathlib

/-!
Verification development for the chatbot flow builder repository.

The repository has two cores that the specification describes:

* a `FlowStorageManager` (storage engine) that persists one "current" flow
  and one rolling backup in a string key-value store, with structural
  validation (`validateFlowData`), save (`saveCurrentFlow`), load
  (`getCurrentFlow`), and backup handling (`createBackup`, `loadBackup`);
* a flow-manager hook with the in-memory graph operations `onConnect`,
  `deleteNode` and `validateFlow`.

The storage engine manipulates dynamically-typed JavaScript values that came
out of `JSON.parse`, so it is embedded over a JSON-like value type `JVal`
(JavaScript truthiness and `typeof` are modelled explicitly).  The graph
operations act on the well-typed React Flow node/edge records, so they are
embedded over typed structures.  Browser storage is modelled as explicit
state passing over a two-slot `Store`; the ambient clock
(`new Date().toISOString()`) is passed as an explicit string parameter.
-/

/-- A JSON-representable JavaScript value: the universe of values the storage
engine manipulates (everything it touches either comes out of `JSON.parse` or
is built by object spreads from such values).  Numbers are modelled as
integers; no claim involves fractional arithmetic. -/
inductive JVal where
  | null
  | bool (b : Bool)
  | num (n : Int)
  | str (s : String)
  | arr (elems : List JVal)
  | obj (fields : List (String × JVal))

/-- JavaScript truthiness of a value: `null`, `false`, `0` and the empty
string are falsy, every array and object is truthy. -/
def JVal.truthy : JVal → Bool
  | .null => false
  | .bool b => b
  | .num n => n != 0
  | .str s => s != ""
  | .arr _ => true
  | .obj _ => true

/-- Whether `typeof v` is the string "object" in JavaScript: true for plain
objects, arrays and `null`. -/
def JVal.typeofObject : JVal → Bool
  | .null => true
  | .arr _ => true
  | .obj _ => true
  | _ => false

/-- First-match lookup of a key in an object's field list.  Objects built by
the code always have distinct keys, so first match agrees with JavaScript
property lookup. -/
def lookupF : List (String × JVal) → String → Option JVal
  | [], _ => none
  | (k', w) :: rest, k => if k' = k then some w else lookupF rest k

/-- Property access `v[k]`; `none` models the JavaScript `undefined` result
for a missing field or for access on a primitive. -/
def getF (v : JVal) (k : String) : Option JVal :=
  match v with
  | .obj fs => lookupF fs k
  | _ => none

/-- Truthiness of a possibly-`undefined` property access. -/
def truthyO (o : Option JVal) : Bool :=
  match o with
  | some v => v.truthy
  | none => false

/-- Setting a key in an object's field list, as a JavaScript object literal
with a trailing key does: an existing binding is updated in place, a new key
is appended at the end. -/
def objSet : List (String × JVal) → String → JVal → List (String × JVal)
  | [], k, v => [(k, v)]
  | (k', w) :: rest, k, v =>
      if k' = k then (k, v) :: rest else (k', w) :: objSet rest k v

/-- Fields contributed by spreading a value into an object literal
(`\x7b...v\x7d`).  Faithful for objects and for `null`/`undefined` (which
spread to nothing).  Spreading a string or an array in JavaScript would
contribute index-keyed fields; the code only ever spreads values that have
passed, or are about to be subjected to, structural validation, which forces
them to be plain objects, and for other inputs the difference is invisible to
every operation modelled here (validation fails either way). -/
def spreadFields : JVal → List (String × JVal)
  | .obj fs => fs
  | _ => []

/-- Result of `validateFlowData`: the `\x7bisValid, error\x7d` record the
source returns. -/
structure VResult where
  isValid : Bool
  error : Option String

/-- Error message for a node with missing required fields, exactly as built
by the source (`Node at index $\x7bi\x7d is missing required fields ...`). -/
def nodeMissingMsg (i : Nat) : String :=
  "Node at index " ++ toString i ++ " is missing required fields (id, type, position)"

/-- Error message for a node with invalid position data, as in the source. -/
def nodePosMsg (i : Nat) : String :=
  "Node at index " ++ toString i ++ " has invalid position data"

/-- Error message for an edge with missing required fields, as in the
source. -/
def edgeMissingMsg (i : Nat) : String :=
  "Edge at index " ++ toString i ++ " is missing required fields (id, source, target)"

/-- Message produced when a `null` entry makes the field access `node.id`
(or `edge.id`) throw a `TypeError`, which the `try/catch` of
`validateFlowData` turns into `Validation error: $\x7berror.message\x7d`.
The message text is the V8 engine's; no theorem below depends on anything
but the fact that it is not one of the index-naming messages (it starts with
"Validation error: " whatever the engine). -/
def nullAccessMsg : String :=
  "Validation error: Cannot read properties of null (reading 'id')"

/-- Whether a value is the JavaScript `null` (the only element of the value
universe on which property access throws). -/
def isNullV : JVal → Bool
  | .null => true
  | _ => false

/-- Whether a possibly-`undefined` value satisfies `typeof v === 'number'`. -/
def isNumV : Option JVal → Bool
  | some (.num _) => true
  | _ => false

/-- Check of `node.position` performed by `validateFlowData` once the three
required fields are known truthy: `typeof node.position !== 'object' ||
typeof node.position.x !== 'number' || typeof node.position.y !== 'number'`. -/
def posDataOk (node : JVal) : Bool :=
  match getF node "position" with
  | some p => p.typeofObject && isNumV (getF p "x") && isNumV (getF p "y")
  | none => false

/-- Per-node check of the `validateFlowData` loop body at index `i`:
`!node.id || !node.type || !node.position` then the position check.  A
`null` node makes the very first access throw (caught by the function's
`try/catch`). -/
def checkNode (i : Nat) (node : JVal) : Option String :=
  if isNullV node then some nullAccessMsg
  else if !(truthyO (getF node "id") && truthyO (getF node "type") &&
        truthyO (getF node "position")) then
    some (nodeMissingMsg i)
  else if !(posDataOk node) then some (nodePosMsg i)
  else none

/-- Per-edge check of the `validateFlowData` loop body at index `i`:
`!edge.id || !edge.source || !edge.target`. -/
def checkEdge (i : Nat) (edge : JVal) : Option String :=
  if isNullV edge then some nullAccessMsg
  else if !(truthyO (getF edge "id") && truthyO (getF edge "source") &&
        truthyO (getF edge "target")) then
    some (edgeMissingMsg i)
  else none

/-- The `for` loops of `validateFlowData`: return the first per-element
error, if any, scanning from index `i`. -/
def scanErr (check : Nat → JVal → Option String) : Nat → List JVal → Option String
  | _, [] => none
  | i, x :: xs =>
      match check i x with
      | some e => some e
      | none => scanErr check (i + 1) xs

/-- Element-wise part of `validateFlowData`: all nodes are checked in order
before any edge. -/
def validateItems (ns es : List JVal) : VResult :=
  match scanErr checkNode 0 ns with
  | some e => ⟨false, some e⟩
  | none =>
      match scanErr checkEdge 0 es with
      | some e => ⟨false, some e⟩
      | none => ⟨true, none⟩

/-- Array checks of `validateFlowData` on the `nodes` and `edges` fields:
`Array.isArray` on each, nodes first. -/
def validateBody : Option JVal → Option JVal → VResult
  | some (.arr ns), some (.arr es) => validateItems ns es
  | some (.arr _), _ => ⟨false, some "Edges must be an array"⟩
  | _, _ => ⟨false, some "Nodes must be an array"⟩

/-- `FlowStorageManager.validateFlowData`: the structural validation shared
by the save and load paths, translated clause by clause from the source. -/
def validateFlowData (flowData : JVal) : VResult :=
  if flowData.truthy && flowData.typeofObject then
    validateBody (getF flowData "nodes") (getF flowData "edges")
  else ⟨false, some "Flow data must be a valid object"⟩

/-- Content of one storage slot as the string it holds: either text that
`JSON.parse` deserializes to a value, or malformed text on which it throws. -/
inductive Stored where
  | ok (v : JVal)
  | malformed

/-- The storage state the manager touches: the current-flow slot, the backup
slot, and whether `isLocalStorageAvailable()` reports the medium available.
The wrapper's in-memory fallback behaves identically to the real medium at
this level, so both are the same two slots. -/
structure Store where
  available : Bool
  current : Option Stored := none
  backup : Option Stored := none

/-- Result envelope returned by the storage operations (the fields the
claims mention; auxiliary fields such as `details` are omitted as no claim
reads them). -/
structure SResult where
  success : Bool
  data : Option JVal := none
  error : Option String := none
  code : Option String := none
  message : Option String := none
  warning : Option String := none

/-- `FlowStorageManager.loadBackup`: reads and parses the backup slot only;
absence is a `NO_BACKUP` failure, a parse failure is a `BACKUP_ERROR`, and a
successfully parsed value is returned without any structural validation. -/
def loadBackup (s : Store) : SResult :=
  match s.backup with
  | none => { success := false, error := some "No backup available", code := some "NO_BACKUP" }
  | some .malformed =>
      { success := false, error := some "Failed to load backup data", code := some "BACKUP_ERROR" }
  | some (.ok parsedBackup) =>
      { success := true, data := some parsedBackup, message := some "Backup loaded successfully" }

/-- `FlowStorageManager.getCurrentFlow`: absence of the current slot is a
success with null data; malformed text makes `JSON.parse` throw a
`SyntaxError` that the `catch` turns into a `PARSE_ERROR` failure (the
backup is not consulted on this path); parsed data failing structural
validation triggers the backup fallback, returning the backup's data with a
warning when the backup loads, and an `INVALID_DATA` failure otherwise. -/
def getCurrentFlow (s : Store) : SResult :=
  match s.current with
  | none => { success := true, data := none, message := some "No saved flow found" }
  | some .malformed =>
      { success := false,
        error := some "Saved flow data is corrupted and cannot be loaded",
        code := some "PARSE_ERROR" }
  | some (.ok flowData) =>
      if (validateFlowData flowData).isValid then
        { success := true, data := some flowData, message := some "Flow loaded successfully" }
      else
        let backupResult := loadBackup s
        if backupResult.success then
          { success := true, data := backupResult.data,
            message := some "Loaded from backup due to corrupted primary data",
            warning := some "Primary flow data was corrupted" }
        else
          { success := false,
            error := some ("Invalid flow data: " ++ ((validateFlowData flowData).error.getD "")),
            code := some "INVALID_DATA" }

/-- The tagged copy `createBackup` writes: `\x7b...flowData, backupCreatedAt,
isBackup: true\x7d`. -/
def backupTagged (flowData : JVal) (now : String) : JVal :=
  .obj (objSet (objSet (spreadFields flowData) "backupCreatedAt" (.str now)) "isBackup" (.bool true))

/-- `FlowStorageManager.createBackup`: overwrites the backup slot with the
tagged copy; returns the new store and the boolean success status (the
serialization of a value that parsed cannot throw here, so it is `true`). -/
def createBackup (s : Store) (flowData : JVal) (now : String) : Store × Bool :=
  ({ s with backup := some (.ok (backupTagged flowData now)) }, true)

/-- Length used by `flowData.nodes?.length || 0`: optional chaining yields
`undefined` (then `0`) unless the value has a `length` (arrays and
strings). -/
def lengthOrZero : Option JVal → Int
  | some (.arr xs) => (xs.length : Int)
  | some (.str s) => (s.length : Int)
  | _ => 0

/-- The metadata-stamped flow `saveCurrentFlow` builds: `\x7b...flowData,
metadata: \x7b...flowData.metadata, version, savedAt, nodeCount, edgeCount,
lastModified\x7d\x7d`.  Both timestamp calls happen in the same event tick
and are modelled by the single parameter `now`.  This models the object
literal only for the non-null inputs on which the property access
`flowData.metadata` does not throw; for a null flow the access throws a
TypeError, which `saveCurrentFlow` handles on a separate branch mirroring
its `catch` block. -/
def stampMetadata (flowData : JVal) (now : String) : JVal :=
  let oldMeta := spreadFields ((getF flowData "metadata").getD JVal.null)
  let md1 := objSet oldMeta "version" (.str "1.0.0")
  let md2 := objSet md1 "savedAt" (.str now)
  let md3 := objSet md2 "nodeCount" (.num (lengthOrZero (getF flowData "nodes")))
  let md4 := objSet md3 "edgeCount" (.num (lengthOrZero (getF flowData "edges")))
  let md5 := objSet md4 "lastModified" (.str now)
  JVal.obj (objSet (spreadFields flowData) "metadata" (.obj md5))

/-- First phase of `saveCurrentFlow`: read whatever is currently stored and,
if that read succeeded with truthy data, copy it (tagged) into the backup
slot. -/
def backupStep (s : Store) (now : String) : Store :=
  let existingFlow := getCurrentFlow s
  if existingFlow.success && truthyO existingFlow.data then
    (createBackup s (existingFlow.data.getD JVal.null) now).1
  else s

/-- `FlowStorageManager.saveCurrentFlow`: backup of the existing flow, then
metadata stamping, then structural validation (`VALIDATION_ERROR` on
failure, before anything is written to the current slot), then the
availability check (`STORAGE_NOT_SUPPORTED`), then serialize, write and
verify.  The read-back verification of a just-written slot always finds the
data, so the success branch returns the enhanced flow.  A null flow makes
the stamping step's access `flowData.metadata` throw a TypeError (after the
backup step has already run); the `catch` block classifies it — name
`TypeError`, message containing neither `JSON` nor `localStorage` — as an
`UNKNOWN_ERROR` failure, so that path is modelled by the `isNullV` branch. -/
def saveCurrentFlow (s : Store) (flowData : JVal) (now : String) : Store × SResult :=
  let s1 := backupStep s now
  if isNullV flowData then
    (s1, { success := false,
           error := some "Failed to save flow due to an unknown error",
           code := some "UNKNOWN_ERROR" })
  else
  let enhancedFlowData := stampMetadata flowData now
  let validation := validateFlowData enhancedFlowData
  if !validation.isValid then
    (s1, { success := false,
           error := some ("Flow validation failed: " ++ validation.error.getD ""),
           code := some "VALIDATION_ERROR" })
  else if !s1.available then
    (s1, { success := false,
           error := some "Local storage is not available in your browser. Changes will be lost when you close the tab.",
           code := some "STORAGE_NOT_SUPPORTED" })
  else
    ({ s1 with current := some (.ok enhancedFlowData) },
     { success := true, data := some enhancedFlowData, message := some "Flow saved successfully" })

/-- Canvas position of a React Flow node. -/
structure Position where
  x : Int
  y : Int
  deriving DecidableEq

/-- An in-memory React Flow node as the flow-manager hook sees it. -/
structure RNode where
  id : String
  type : String
  position : Position
  data : JVal

/-- An in-memory React Flow edge. -/
structure REdge where
  id : String
  source : String
  target : String
  sourceHandle : Option String := none
  targetHandle : Option String := none
  deriving DecidableEq

/-- A candidate connection as delivered by a connect gesture. -/
structure Connection where
  source : String
  target : String
  sourceHandle : Option String := none
  targetHandle : Option String := none
  deriving DecidableEq

/-- The predicate `onConnect` uses to look for an existing edge from the
same output port: `edge.source === connection.source && edge.sourceHandle
=== connection.sourceHandle`. -/
def pairMatches (connection : Connection) (e : REdge) : Bool :=
  e.source == connection.source && e.sourceHandle == connection.sourceHandle

/-- The edge record the connect step appends for a candidate connection,
carrying the fresh id. -/
def connEdge (connection : Connection) (freshId : String) : REdge :=
  { id := freshId, source := connection.source, target := connection.target,
    sourceHandle := connection.sourceHandle, targetHandle := connection.targetHandle }

/-- Modelled from the spec: `addEdge` comes from the third-party `reactflow`
package, which is not part of this repository.  Per the spec's description
of the connect step, the candidate edge "is simply appended" and "is
assigned a fresh unique id"; the fresh id is passed explicitly. -/
def addEdge (connection : Connection) (freshId : String) (eds : List REdge) : List REdge :=
  eds ++ [connEdge connection freshId]

/-- `useFlowManager.onConnect`: if an edge with the candidate's `(source,
sourceHandle)` pair exists, remove it by id and add the new edge in the same
step; otherwise just add the new edge. -/
def onConnect (connection : Connection) (freshId : String) (edges : List REdge) : List REdge :=
  match edges.find? (pairMatches connection) with
  | some existingEdgeFromSource =>
      addEdge connection freshId (edges.filter (fun e => e.id != existingEdgeFromSource.id))
  | none => addEdge connection freshId edges

/-- `useFlowManager.deleteNode`: drop the node with the given id and every
edge whose source or target is that id. -/
def deleteNode (nodeId : String) (nodes : List RNode) (edges : List REdge) :
    List RNode × List REdge :=
  (nodes.filter (fun node => node.id != nodeId),
   edges.filter (fun e => e.source != nodeId && e.target != nodeId))

/-- Result record of `useFlowManager.validateFlow`. -/
structure FlowValidation where
  isValid : Bool
  error : Option String
  message : Option String := none
  deriving DecidableEq

/-- The user-facing message of a failed `validateFlow`. -/
def disconnectedMsg : String :=
  "Your flow has disconnected nodes that need to be connected. Please make sure all nodes (except the starting node) have incoming connections before saving."

/-- `useFlowManager.validateFlow`: a flow with at most one node is valid;
otherwise it is invalid exactly when more than one node has no incoming
edge. -/
def validateFlow (nodes : List RNode) (edges : List REdge) : FlowValidation :=
  if nodes.length ≤ 1 then ⟨true, none, none⟩
  else
    let nodesWithoutTargets :=
      nodes.filter (fun node => !(edges.any (fun e => e.target == node.id)))
    if nodesWithoutTargets.length > 1 then
      ⟨false, some disconnectedMsg, some disconnectedMsg⟩
    else ⟨true, none, none⟩

/-- The spec's per-node requirement, stated from its words: "every node has
a non-empty `id`, a `type`, and a `position` whose `x` and `y` are numeric".
Field presence with non-emptiness is JavaScript truthiness (for the
string-valued fields of the data model, truthiness is exactly
non-emptiness). -/
def specNodeOk (node : JVal) : Prop :=
  truthyO (getF node "id") = true ∧ truthyO (getF node "type") = true ∧
    ∃ fs, getF node "position" = some (.obj fs) ∧
      (∃ x, lookupF fs "x" = some (.num x)) ∧ (∃ y, lookupF fs "y" = some (.num y))

/-- The spec's per-edge requirement: "every edge has a non-empty `id`,
`source`, and `target`". -/
def specEdgeOk (edge : JVal) : Prop :=
  truthyO (getF edge "id") = true ∧ truthyO (getF edge "source") = true ∧
    truthyO (getF edge "target") = true

/-- The spec's flow-validity predicate, stated from its words: a non-null
keyed structure whose `nodes` and `edges` fields are (possibly empty)
sequences, every node and edge of which satisfies the per-element
requirements. -/
def flowValidSpec (v : JVal) : Prop :=
  ∃ fs ns es, v = .obj fs ∧
    lookupF fs "nodes" = some (.arr ns) ∧ lookupF fs "edges" = some (.arr es) ∧
    (∀ n ∈ ns, specNodeOk n) ∧ (∀ e ∈ es, specEdgeOk e)

/-- A node has no incoming edge in the given edge set (its in-degree is
zero): no edge's target is the node's id. -/
def noIncoming (edges : List REdge) (node : RNode) : Prop :=
  ∀ e ∈ edges, e.target ≠ node.id

instance noIncomingDecidable (edges : List REdge) (node : RNode) :
    Decidable (noIncoming edges node) :=
  decidable_of_iff (∀ e ∈ edges, e.target ≠ node.id) Iff.rfl

/-- Structurally valid sample flow with no nodes and no edges, used as backup
content in the C3 counterexample. -/
def c3GoodFlow : JVal := .obj [("nodes", .arr []), ("edges", .arr [])]
/-- Store whose current slot holds malformed text and whose backup slot holds
a valid flow. -/
def c3Store : Store :=
  { available := true, current := some .malformed, backup := some (.ok c3GoodFlow) }
/-- Store whose current slot holds parseable but structurally invalid data
(the JSON text "null") and whose backup slot holds a valid flow. -/
def c3wStore : Store :=
  { available := true, current := some (.ok .null), backup := some (.ok c3GoodFlow) }
/-- Store with a previously saved valid current flow, used to witness C4. -/
def c4Store : Store :=
  { available := true, current := some (.ok (.obj [("nodes", .arr []), ("edges", .arr [])])) }
/-- Parseable but structurally invalid backup content used for C10. -/
def c10BadBackup : JVal := .obj [("oops", .num 1)]
/-- Store whose current and backup slots both hold parseable but structurally
invalid data. -/
def c10Store : Store :=
  { available := true, current := some (.ok .null), backup := some (.ok c10BadBackup) }
/-- Structurally valid one-node flow used to witness C5. -/
def c5Flow : JVal :=
  .obj [("nodes", .arr [.obj [("id", .str "n1"), ("type", .str "textMessage"),
          ("position", .obj [("x", .num 0), ("y", .num 0)]),
          ("data", .obj [("text", .str "hi")])]]),
        ("edges", .arr [])]
/-- Structurally valid two-node, one-edge flow (the spec's backup scenario)
used to witness C6. -/
def c6Flow1 : JVal :=
  .obj [("nodes", .arr [
    .obj [("id", .str "A"), ("type", .str "textMessage"),
          ("position", .obj [("x", .num 0), ("y", .num 0)])],
    .obj [("id", .str "B"), ("type", .str "textMessage"),
          ("position", .obj [("x", .num 200), ("y", .num 0)])]]),
   ("edges", .arr [.obj [("id", .str "e1"), ("source", .str "A"), ("target", .str "B")]])]
/-- Structurally valid empty flow saved second in the C6 witness. -/
def c6Flow2 : JVal := .obj [("nodes", .arr []), ("edges", .arr [])]

lemma validateFlowData_obj (fs : List (String × JVal)) :
    validateFlowData (.obj fs) = validateBody (lookupF fs "nodes") (lookupF fs "edges") := rfl

lemma lookupF_objSet_self (fs : List (String × JVal)) (k : String) (v : JVal) :
    lookupF (objSet fs k v) k = some v := by
  induction fs with
  | nil => simp [objSet, lookupF]
  | cons p rest ih =>
      obtain ⟨k', w⟩ := p
      by_cases h : k' = k
      · simp [objSet, h, lookupF]
      · simp [objSet, h, lookupF, ih]

lemma lookupF_objSet_ne (fs : List (String × JVal)) (k k' : String) (v : JVal)
    (h : k' ≠ k) : lookupF (objSet fs k v) k' = lookupF fs k' := by
  have hne : ¬ k = k' := fun hh => h hh.symm
  induction fs with
  | nil =>
      simp only [objSet, lookupF]
      rw [if_neg hne]
  | cons p rest ih =>
      obtain ⟨k'', w⟩ := p
      simp only [objSet]
      by_cases hk : k'' = k
      · rw [if_pos hk]
        subst hk
        simp only [lookupF]
        rw [if_neg hne, if_neg hne]
      · rw [if_neg hk]
        simp only [lookupF]
        by_cases hk2 : k'' = k'
        · rw [if_pos hk2, if_pos hk2]
        · rw [if_neg hk2, if_neg hk2, ih]

lemma valid_is_obj (v : JVal) (h : (validateFlowData v).isValid = true) :
    ∃ fs, v = .obj fs := by
  cases v with
  | obj fs => exact ⟨fs, rfl⟩
  | null => simp [validateFlowData, JVal.truthy, JVal.typeofObject] at h
  | bool b => cases b <;> simp [validateFlowData, JVal.truthy, JVal.typeofObject] at h
  | num n => simp [validateFlowData, JVal.truthy, JVal.typeofObject] at h
  | str s => simp [validateFlowData, JVal.truthy, JVal.typeofObject] at h
  | arr xs => simp [validateFlowData, JVal.truthy, JVal.typeofObject, getF, validateBody] at h

lemma validateFlowData_congr (fs gs : List (String × JVal))
    (hn : lookupF fs "nodes" = lookupF gs "nodes")
    (he : lookupF fs "edges" = lookupF gs "edges") :
    validateFlowData (.obj fs) = validateFlowData (.obj gs) := by
  rw [validateFlowData_obj, validateFlowData_obj, hn, he]

lemma getF_stampMetadata (fs : List (String × JVal)) (now : String) (k : String)
    (hk : k ≠ "metadata") : getF (stampMetadata (.obj fs) now) k = lookupF fs k := by
  simp only [stampMetadata, spreadFields, getF]
  exact lookupF_objSet_ne _ _ _ _ hk

lemma validateFlowData_stamp (fs : List (String × JVal)) (now : String) :
    validateFlowData (stampMetadata (.obj fs) now) = validateFlowData (.obj fs) := by
  simp only [stampMetadata, spreadFields]
  rw [validateFlowData_obj, validateFlowData_obj,
    lookupF_objSet_ne _ _ _ _ (by decide : ("nodes" : String) ≠ "metadata"),
    lookupF_objSet_ne _ _ _ _ (by decide : ("edges" : String) ≠ "metadata")]

lemma backupStep_current (s : Store) (now : String) :
    (backupStep s now).current = s.current := by
  simp only [backupStep, createBackup]
  split <;> rfl

lemma backupStep_available (s : Store) (now : String) :
    (backupStep s now).available = s.available := by
  simp only [backupStep, createBackup]
  split <;> rfl

lemma saveCurrentFlow_of_null (s : Store) (now : String) :
    saveCurrentFlow s .null now =
      (backupStep s now,
       { success := false,
         error := some "Failed to save flow due to an unknown error",
         code := some "UNKNOWN_ERROR" }) := rfl

lemma saveCurrentFlow_of_invalid (s : Store) (flow : JVal) (now : String)
    (hnn : isNullV flow = false)
    (h : (validateFlowData (stampMetadata flow now)).isValid = false) :
    saveCurrentFlow s flow now =
      (backupStep s now,
       { success := false,
         error := some ("Flow validation failed: " ++
           ((validateFlowData (stampMetadata flow now)).error.getD "")),
         code := some "VALIDATION_ERROR" }) := by
  simp [saveCurrentFlow, hnn, h]

lemma saveCurrentFlow_of_valid (s : Store) (flow : JVal) (now : String)
    (hnn : isNullV flow = false)
    (hv : (validateFlowData (stampMetadata flow now)).isValid = true)
    (ha : s.available = true) :
    saveCurrentFlow s flow now =
      ({ backupStep s now with current := some (.ok (stampMetadata flow now)) },
       { success := true, data := some (stampMetadata flow now),
         message := some "Flow saved successfully" }) := by
  simp [saveCurrentFlow, hnn, hv, backupStep_available, ha]

lemma getCurrentFlow_of_ok_valid (s : Store) (v : JVal)
    (hc : s.current = some (.ok v)) (hv : (validateFlowData v).isValid = true) :
    getCurrentFlow s =
      { success := true, data := some v, message := some "Flow loaded successfully" } := by
  simp [getCurrentFlow, hc, hv]

/-- C3 counterexample: the claim says malformed current-slot text also
triggers the automatic backup fallback, but on malformed text `JSON.parse`
throws and `getCurrentFlow` returns a PARSE_ERROR failure without consulting
the backup, even when a perfectly valid backup exists. -/
theorem getCurrentFlow_malformed_no_fallback_cex :
    (validateFlowData c3GoodFlow).isValid = true ∧
    (loadBackup c3Store).success = true ∧
    (getCurrentFlow c3Store).success = false ∧
    (getCurrentFlow c3Store).code = some "PARSE_ERROR" ∧
    (getCurrentFlow c3Store).warning = none :=
  ⟨rfl, rfl, rfl, rfl, rfl⟩

/-- C3 (amended): only current-slot content that deserializes but fails
structural validation triggers the automatic backup fallback — returning the
backup's data with the warning flag set when the backup loads, and an
INVALID_DATA failure when it does not; current-slot content that fails to
deserialize (malformed text) yields a PARSE_ERROR failure without the backup
being consulted. -/
theorem getCurrentFlow_backup_fallback_amended :
    (∀ (s : Store) (v : JVal), s.current = some (.ok v) →
        (validateFlowData v).isValid = false → (loadBackup s).success = true →
        (getCurrentFlow s).success = true ∧
          (getCurrentFlow s).data = (loadBackup s).data ∧
          (getCurrentFlow s).warning = some "Primary flow data was corrupted") ∧
    (∀ (s : Store) (v : JVal), s.current = some (.ok v) →
        (validateFlowData v).isValid = false → (loadBackup s).success = false →
        (getCurrentFlow s).success = false ∧
          (getCurrentFlow s).code = some "INVALID_DATA") ∧
    (∀ s : Store, s.current = some .malformed →
        (getCurrentFlow s).success = false ∧
          (getCurrentFlow s).code = some "PARSE_ERROR") := by
  refine ⟨?_, ?_, ?_⟩
  · intro s v hc hv hb
    simp [getCurrentFlow, hc, hv, hb]
  · intro s v hc hv hb
    simp [getCurrentFlow, hc, hv, hb]
  · intro s hc
    simp [getCurrentFlow, hc]

/-- Witness for the amended C3 theorem at a concrete store: invalid (but
parseable) current data, valid backup. -/
theorem getCurrentFlow_backup_fallback_amended_witness :
    (getCurrentFlow c3wStore).success = true ∧
      (getCurrentFlow c3wStore).data = (loadBackup c3wStore).data ∧
      (getCurrentFlow c3wStore).warning = some "Primary flow data was corrupted" :=
  getCurrentFlow_backup_fallback_amended.1 c3wStore .null rfl rfl rfl

/-- C4: a flow whose metadata-stamped form fails structural validation makes
`saveCurrentFlow` return a VALIDATION_ERROR failure, and the current slot
(and the availability of the medium) are exactly as before the call: only
the backup slot may have been mutated, because the backup of the prior
current flow happens before validation.  The non-null hypothesis delimits
the flows that have a metadata-stamped form at all: on a null flow the
stamping itself throws and the catch returns UNKNOWN_ERROR instead (see
`saveCurrentFlow_of_null`), never reaching validation. -/
theorem saveCurrentFlow_validation_failure_preserves_current
    (s : Store) (flow : JVal) (now : String)
    (hnn : isNullV flow = false)
    (h : (validateFlowData (stampMetadata flow now)).isValid = false) :
    (saveCurrentFlow s flow now).2.success = false ∧
    (saveCurrentFlow s flow now).2.code = some "VALIDATION_ERROR" ∧
    (saveCurrentFlow s flow now).1.current = s.current ∧
    (saveCurrentFlow s flow now).1.available = s.available := by
  rw [saveCurrentFlow_of_invalid s flow now hnn h]
  exact ⟨rfl, rfl, backupStep_current s now, backupStep_available s now⟩

/-- Witness for C4: saving a non-null value that stamps to an invalid flow
(here the empty object, whose stamped form has no nodes array) fails with
VALIDATION_ERROR and leaves the current slot untouched. -/
theorem saveCurrentFlow_validation_failure_preserves_current_witness :
    (saveCurrentFlow c4Store (.obj []) "t").2.success = false ∧
    (saveCurrentFlow c4Store (.obj []) "t").2.code = some "VALIDATION_ERROR" ∧
    (saveCurrentFlow c4Store (.obj []) "t").1.current = c4Store.current ∧
    (saveCurrentFlow c4Store (.obj []) "t").1.available = c4Store.available :=
  saveCurrentFlow_validation_failure_preserves_current c4Store (.obj []) "t" rfl rfl

/-- C8: when the current slot is empty (nothing ever saved), `getCurrentFlow`
returns a success result with null data, not an error. -/
theorem getCurrentFlow_empty_slot_success_null (s : Store) (h : s.current = none) :
    getCurrentFlow s =
      { success := true, data := none, message := some "No saved flow found" } := by
  simp [getCurrentFlow, h]

/-- Witness for C8 on the fresh store. -/
theorem getCurrentFlow_empty_slot_success_null_witness :
    getCurrentFlow { available := true } =
      { success := true, data := none, message := some "No saved flow found" } :=
  getCurrentFlow_empty_slot_success_null { available := true } rfl

/-- C10: `loadBackup` never structurally validates what it returns — any
parseable backup content is returned as success — and consequently
`getCurrentFlow`'s recovery path can return success whose data is itself
structurally invalid, as the concrete store here shows. -/
theorem loadBackup_never_validates :
    (∀ (s : Store) (v : JVal), s.backup = some (.ok v) →
        loadBackup s =
          { success := true, data := some v, message := some "Backup loaded successfully" }) ∧
    ((validateFlowData c10BadBackup).isValid = false ∧
      getCurrentFlow c10Store =
        { success := true, data := some c10BadBackup,
          message := some "Loaded from backup due to corrupted primary data",
          warning := some "Primary flow data was corrupted" }) := by
  refine ⟨?_, rfl, rfl⟩
  intro s v h
  simp [loadBackup, h]

/-- Witness for C10 applying the universally quantified part at the concrete
store. -/
theorem loadBackup_never_validates_witness :
    loadBackup c10Store =
      { success := true, data := some c10BadBackup,
        message := some "Backup loaded successfully" } :=
  loadBackup_never_validates.1 c10Store c10BadBackup rfl

lemma stampMetadata_truthy (flow : JVal) (now : String) :
    (stampMetadata flow now).truthy = true := rfl

lemma loadBackup_of_ok (s : Store) (v : JVal) (h : s.backup = some (.ok v)) :
    loadBackup s =
      { success := true, data := some v, message := some "Backup loaded successfully" } := by
  simp [loadBackup, h]

lemma backupStep_of_ok_valid (s : Store) (v : JVal) (now : String)
    (hc : s.current = some (.ok v)) (hv : (validateFlowData v).isValid = true)
    (ht : v.truthy = true) :
    backupStep s now = { s with backup := some (.ok (backupTagged v now)) } := by
  simp [backupStep, getCurrentFlow_of_ok_valid s v hc hv, truthyO, ht, createBackup]

lemma getF_backupTagged_ne (v : JVal) (now : String) (k : String)
    (hk1 : k ≠ "backupCreatedAt") (hk2 : k ≠ "isBackup") :
    getF (backupTagged v now) k = lookupF (spreadFields v) k := by
  simp only [backupTagged, getF]
  rw [lookupF_objSet_ne _ _ _ _ hk2, lookupF_objSet_ne _ _ _ _ hk1]

lemma lookupF_spread_stamp (fs : List (String × JVal)) (now : String) (k : String)
    (hk : k ≠ "metadata") :
    lookupF (spreadFields (stampMetadata (.obj fs) now)) k = lookupF fs k := by
  simp only [stampMetadata, spreadFields]
  exact lookupF_objSet_ne _ _ _ _ hk

/-- C5: for a structurally valid flow and an available medium, a successful
`saveCurrentFlow` followed by `getCurrentFlow` returns success with exactly
the stored metadata-stamped record, whose `nodes` and `edges` fields are the
saved flow's `nodes` and `edges` unchanged (stamping only rewrites the
`metadata` field). -/
theorem save_then_load_round_trip (s : Store) (flow : JVal) (now : String)
    (ha : s.available = true) (hv : (validateFlowData flow).isValid = true) :
    (saveCurrentFlow s flow now).2.success = true ∧
    (getCurrentFlow (saveCurrentFlow s flow now).1).success = true ∧
    (getCurrentFlow (saveCurrentFlow s flow now).1).data = some (stampMetadata flow now) ∧
    getF (stampMetadata flow now) "nodes" = getF flow "nodes" ∧
    getF (stampMetadata flow now) "edges" = getF flow "edges" := by
  obtain ⟨fs, rfl⟩ := valid_is_obj flow hv
  have hstamp : (validateFlowData (stampMetadata (.obj fs) now)).isValid = true := by
    rw [validateFlowData_stamp]
    exact hv
  rw [saveCurrentFlow_of_valid s (.obj fs) now rfl hstamp ha]
  refine ⟨rfl, ?_, ?_, ?_, ?_⟩
  · rw [getCurrentFlow_of_ok_valid _ _ rfl hstamp]
  · rw [getCurrentFlow_of_ok_valid _ _ rfl hstamp]
  · exact getF_stampMetadata fs now "nodes" (by decide)
  · exact getF_stampMetadata fs now "edges" (by decide)

/-- Witness for C5 on a fresh available store and a concrete valid flow. -/
theorem save_then_load_round_trip_witness :
    (saveCurrentFlow { available := true } c5Flow "t1").2.success = true ∧
    (getCurrentFlow (saveCurrentFlow { available := true } c5Flow "t1").1).success = true ∧
    (getCurrentFlow (saveCurrentFlow { available := true } c5Flow "t1").1).data =
      some (stampMetadata c5Flow "t1") ∧
    getF (stampMetadata c5Flow "t1") "nodes" = getF c5Flow "nodes" ∧
    getF (stampMetadata c5Flow "t1") "edges" = getF c5Flow "edges" :=
  save_then_load_round_trip { available := true } c5Flow "t1" rfl rfl

/-- C6: after two successful saves, the backup slot holds exactly the first
save's stored record, tagged with `isBackup` and `backupCreatedAt`:
`loadBackup` returns it, and its `nodes` and `edges` are the first flow's
ones (only one backup generation is retained, written before the second save
overwrites the current slot). -/
theorem double_save_backup_retention (s : Store) (f1 f2 : JVal) (t1 t2 : String)
    (ha : s.available = true)
    (h1 : (validateFlowData f1).isValid = true)
    (h2 : (validateFlowData f2).isValid = true) :
    (saveCurrentFlow s f1 t1).2.success = true ∧
    (saveCurrentFlow (saveCurrentFlow s f1 t1).1 f2 t2).2.success = true ∧
    loadBackup (saveCurrentFlow (saveCurrentFlow s f1 t1).1 f2 t2).1 =
      { success := true, data := some (backupTagged (stampMetadata f1 t1) t2),
        message := some "Backup loaded successfully" } ∧
    getF (backupTagged (stampMetadata f1 t1) t2) "nodes" = getF f1 "nodes" ∧
    getF (backupTagged (stampMetadata f1 t1) t2) "edges" = getF f1 "edges" ∧
    getF (backupTagged (stampMetadata f1 t1) t2) "isBackup" = some (.bool true) ∧
    getF (backupTagged (stampMetadata f1 t1) t2) "backupCreatedAt" = some (.str t2) := by
  obtain ⟨fs1, rfl⟩ := valid_is_obj f1 h1
  obtain ⟨fs2, rfl⟩ := valid_is_obj f2 h2
  have hs1 : (validateFlowData (stampMetadata (.obj fs1) t1)).isValid = true := by
    rw [validateFlowData_stamp]
    exact h1
  have hs2 : (validateFlowData (stampMetadata (.obj fs2) t2)).isValid = true := by
    rw [validateFlowData_stamp]
    exact h2
  rw [saveCurrentFlow_of_valid s (.obj fs1) t1 rfl hs1 ha]
  have ha2 : ({ backupStep s t1 with current := some (.ok (stampMetadata (.obj fs1) t1)) } : Store).available = true := by
    show (backupStep s t1).available = true
    rw [backupStep_available]
    exact ha
  rw [saveCurrentFlow_of_valid _ (.obj fs2) t2 rfl hs2 ha2]
  refine ⟨rfl, rfl, ?_, ?_, ?_, ?_, ?_⟩
  · have hb : ({ backupStep { backupStep s t1 with current := some (.ok (stampMetadata (.obj fs1) t1)) } t2 with
          current := some (.ok (stampMetadata (.obj fs2) t2)) } : Store).backup =
        some (.ok (backupTagged (stampMetadata (.obj fs1) t1) t2)) := by
      show (backupStep { backupStep s t1 with current := some (.ok (stampMetadata (.obj fs1) t1)) } t2).backup = _
      rw [backupStep_of_ok_valid _ (stampMetadata (.obj fs1) t1) t2 rfl hs1
        (stampMetadata_truthy _ _)]
    exact loadBackup_of_ok _ _ hb
  · rw [getF_backupTagged_ne _ _ _ (by decide) (by decide),
      lookupF_spread_stamp _ _ _ (by decide)]
    rfl
  · rw [getF_backupTagged_ne _ _ _ (by decide) (by decide),
      lookupF_spread_stamp _ _ _ (by decide)]
    rfl
  · simp only [backupTagged, getF]
    exact lookupF_objSet_self _ _ _
  · simp only [backupTagged, getF]
    rw [lookupF_objSet_ne _ _ _ _ (by decide)]
    exact lookupF_objSet_self _ _ _

/-- Witness for C6 on a fresh store: save the two-node flow, save the empty
flow, and the backup is the stored two-node record with the backup tags. -/
theorem double_save_backup_retention_witness :
    (saveCurrentFlow { available := true } c6Flow1 "t1").2.success = true ∧
    (saveCurrentFlow (saveCurrentFlow { available := true } c6Flow1 "t1").1 c6Flow2 "t2").2.success = true ∧
    loadBackup (saveCurrentFlow (saveCurrentFlow { available := true } c6Flow1 "t1").1 c6Flow2 "t2").1 =
      { success := true, data := some (backupTagged (stampMetadata c6Flow1 "t1") "t2"),
        message := some "Backup loaded successfully" } ∧
    getF (backupTagged (stampMetadata c6Flow1 "t1") "t2") "nodes" = getF c6Flow1 "nodes" ∧
    getF (backupTagged (stampMetadata c6Flow1 "t1") "t2") "edges" = getF c6Flow1 "edges" ∧
    getF (backupTagged (stampMetadata c6Flow1 "t1") "t2") "isBackup" = some (.bool true) ∧
    getF (backupTagged (stampMetadata c6Flow1 "t1") "t2") "backupCreatedAt" = some (.str "t2") :=
  double_save_backup_retention { available := true } c6Flow1 c6Flow2 "t1" "t2" rfl rfl rfl

/-- C1: `validateFlow` always succeeds on flows with at most one node, and on
flows with at least two nodes it fails exactly when at least two nodes have
no incoming edge (an in-degree-zero count, not a reachability check). -/
theorem validateFlow_in_degree_rule (nodes : List RNode) (edges : List REdge) :
    (nodes.length ≤ 1 → (validateFlow nodes edges).isValid = true) ∧
    (2 ≤ nodes.length →
      ((validateFlow nodes edges).isValid = false ↔
        2 ≤ (nodes.filter (fun n => decide (noIncoming edges n))).length)) := by
  constructor
  · intro h
    simp [validateFlow, h]
  · intro h
    have h1 : ¬ (nodes.length ≤ 1) := by omega
    have hfilter : nodes.filter (fun node => !(edges.any (fun e => e.target == node.id))) =
        nodes.filter (fun n => decide (noIncoming edges n)) := by
      apply List.filter_congr
      intro n _
      rw [Bool.eq_iff_iff]
      simp [noIncoming, List.any_eq_true]
    simp only [validateFlow, if_neg h1, hfilter]
    by_cases hgt : 1 < (nodes.filter (fun n => decide (noIncoming edges n))).length
    · rw [if_pos hgt]
      constructor
      · intro _
        omega
      · intro _
        rfl
    · rw [if_neg hgt]
      constructor
      · intro hfalse
        exact absurd hfalse (by simp)
      · intro hlen
        omega

/-- Witness for C1: the empty flow validates, and a two-node flow with no
edges fails with two in-degree-zero nodes. -/
theorem validateFlow_in_degree_rule_witness :
    (validateFlow [] []).isValid = true ∧
    ((validateFlow [⟨"A", "textMessage", ⟨0, 0⟩, .null⟩, ⟨"B", "textMessage", ⟨200, 0⟩, .null⟩]
        []).isValid = false ↔
      2 ≤ ([⟨"A", "textMessage", ⟨0, 0⟩, .null⟩, ⟨"B", "textMessage", ⟨200, 0⟩, .null⟩].filter
            (fun n => decide (noIncoming [] n))).length) :=
  ⟨(validateFlow_in_degree_rule [] []).1 (by decide),
   (validateFlow_in_degree_rule
      [⟨"A", "textMessage", ⟨0, 0⟩, .null⟩, ⟨"B", "textMessage", ⟨200, 0⟩, .null⟩] []).2
      (by decide)⟩

/-- C7: `deleteNode` removes the node with the given id together with every
edge whose source or target is that id, keeps every other node and edge, and
preserves their order. -/
theorem deleteNode_removes_node_and_incident_edges (nodeId : String)
    (nodes : List RNode) (edges : List REdge) (hmem : nodeId ∈ nodes.map RNode.id) :
    (∀ n, n ∈ (deleteNode nodeId nodes edges).1 ↔ (n ∈ nodes ∧ n.id ≠ nodeId)) ∧
    (∀ e, e ∈ (deleteNode nodeId nodes edges).2 ↔
      (e ∈ edges ∧ e.source ≠ nodeId ∧ e.target ≠ nodeId)) ∧
    List.Sublist (deleteNode nodeId nodes edges).1 nodes ∧
    List.Sublist (deleteNode nodeId nodes edges).2 edges := by
  refine ⟨?_, ?_, List.filter_sublist _, List.filter_sublist _⟩
  · intro n
    simp [deleteNode, List.mem_filter, bne_iff_ne]
  · intro e
    simp [deleteNode, List.mem_filter, bne_iff_ne, Bool.and_eq_true, and_assoc]

/-- Witness for C7: deleting node "A" from a two-node flow with one incident
edge. -/
theorem deleteNode_removes_node_and_incident_edges_witness :
    (∀ n, n ∈ (deleteNode "A" [⟨"A", "textMessage", ⟨0, 0⟩, .null⟩, ⟨"B", "textMessage", ⟨200, 0⟩, .null⟩]
        [⟨"e1", "A", "B", none, none⟩]).1 ↔
      (n ∈ [⟨"A", "textMessage", ⟨0, 0⟩, .null⟩, ⟨"B", "textMessage", ⟨200, 0⟩, .null⟩] ∧ n.id ≠ "A")) ∧
    (∀ e, e ∈ (deleteNode "A" [⟨"A", "textMessage", ⟨0, 0⟩, .null⟩, ⟨"B", "textMessage", ⟨200, 0⟩, .null⟩]
        [⟨"e1", "A", "B", none, none⟩]).2 ↔
      (e ∈ [⟨"e1", "A", "B", none, none⟩] ∧ e.source ≠ "A" ∧ e.target ≠ "A")) ∧
    List.Sublist (deleteNode "A" [⟨"A", "textMessage", ⟨0, 0⟩, .null⟩, ⟨"B", "textMessage", ⟨200, 0⟩, .null⟩]
        [⟨"e1", "A", "B", none, none⟩]).1
      [⟨"A", "textMessage", ⟨0, 0⟩, .null⟩, ⟨"B", "textMessage", ⟨200, 0⟩, .null⟩] ∧
    List.Sublist (deleteNode "A" [⟨"A", "textMessage", ⟨0, 0⟩, .null⟩, ⟨"B", "textMessage", ⟨200, 0⟩, .null⟩]
        [⟨"e1", "A", "B", none, none⟩]).2
      [⟨"e1", "A", "B", none, none⟩] :=
  deleteNode_removes_node_and_incident_edges "A"
    [⟨"A", "textMessage", ⟨0, 0⟩, .null⟩, ⟨"B", "textMessage", ⟨200, 0⟩, .null⟩]
    [⟨"e1", "A", "B", none, none⟩] (by simp)

/-- C2 counterexample: the claim quantifies over every edge set, but when two
edges already share the candidate's (source, sourceHandle) pair, `onConnect`
removes only the first one `find?` returns, so two edges with the pair
remain afterwards instead of exactly one. -/
theorem onConnect_unique_pair_cex :
    ((onConnect ⟨"A", "D", none, none⟩ "e3"
        [⟨"e1", "A", "B", none, none⟩, ⟨"e2", "A", "C", none, none⟩]).filter
        (pairMatches ⟨"A", "D", none, none⟩)).length = 2 ∧
    ¬ ((onConnect ⟨"A", "D", none, none⟩ "e3"
        [⟨"e1", "A", "B", none, none⟩, ⟨"e2", "A", "C", none, none⟩]).filter
        (pairMatches ⟨"A", "D", none, none⟩)).length = 1 := by
  constructor
  · rfl
  · decide

/-- C2 (amended): provided edge ids are pairwise distinct and at most one
edge already has the candidate's (source, sourceHandle) pair — the invariant
the connect step itself maintains — after `onConnect` exactly one edge has
the candidate's pair, namely the newly added edge, and the edges with any
other pair are exactly those of the original set, in order. -/
theorem onConnect_unique_pair_amended (edges : List REdge) (connection : Connection)
    (freshId : String)
    (hnodup : (edges.map REdge.id).Nodup)
    (hinv : (edges.filter (pairMatches connection)).length ≤ 1) :
    (onConnect connection freshId edges).filter (pairMatches connection) =
      [connEdge connection freshId] ∧
    (onConnect connection freshId edges).filter (fun e => !(pairMatches connection e)) =
      edges.filter (fun e => !(pairMatches connection e)) := by
  have hpm : pairMatches connection (connEdge connection freshId) = true := by
    simp [pairMatches, connEdge]
  cases hfind : edges.find? (pairMatches connection) with
  | none =>
      have hall : ∀ e ∈ edges, ¬ pairMatches connection e = true :=
        List.find?_eq_none.mp hfind
      have heq : onConnect connection freshId edges = addEdge connection freshId edges := by
        unfold onConnect
        rw [hfind]
      rw [heq]
      unfold addEdge
      constructor
      · rw [List.filter_append, List.filter_eq_nil_iff.mpr hall]
        simp [hpm]
      · rw [List.filter_append]
        have h2 : List.filter (fun e => !(pairMatches connection e))
            [connEdge connection freshId] = [] := by
          simp [hpm]
        rw [h2, List.append_nil]
  | some ex =>
      have hex_mem : ex ∈ edges := List.mem_of_find?_eq_some hfind
      have hex_pm : pairMatches connection ex = true := List.find?_some hfind
      have hsingle : edges.filter (pairMatches connection) = [ex] := by
        have hmem : ex ∈ edges.filter (pairMatches connection) :=
          List.mem_filter.mpr ⟨hex_mem, hex_pm⟩
        rcases hfl : edges.filter (pairMatches connection) with _ | ⟨a, rest⟩
        · rw [hfl] at hmem
          cases hmem
        · cases rest with
          | nil =>
              rw [hfl] at hmem
              have : ex = a := by simpa using hmem
              rw [this]
          | cons b t =>
              rw [hfl] at hinv
              simp at hinv
      have hid : ∀ e ∈ edges, e.id = ex.id → e = ex := fun e he heq =>
        List.inj_on_of_nodup_map hnodup he hex_mem heq
      have heq : onConnect connection freshId edges =
          addEdge connection freshId (edges.filter (fun e => e.id != ex.id)) := by
        unfold onConnect
        rw [hfind]
      rw [heq]
      unfold addEdge
      constructor
      · rw [List.filter_append]
        have hnil : (edges.filter (fun e => e.id != ex.id)).filter (pairMatches connection) = [] := by
          rw [List.filter_filter]
          apply List.filter_eq_nil_iff.mpr
          intro e he hcontra
          have h1 := (Bool.and_eq_true _ _).mp hcontra
          have hpme : pairMatches connection e = true := h1.1
          have hmem2 : e ∈ edges.filter (pairMatches connection) :=
            List.mem_filter.mpr ⟨he, hpme⟩
          rw [hsingle] at hmem2
          have heq2 : e = ex := by simpa using hmem2
          subst heq2
          simp at h1
        rw [hnil]
        simp [hpm]
      · rw [List.filter_append]
        have h2 : List.filter (fun e => !(pairMatches connection e))
            [connEdge connection freshId] = [] := by
          simp [hpm]
        rw [h2, List.append_nil, List.filter_filter]
        apply List.filter_congr
        intro e he
        by_cases hpme : pairMatches connection e = true
        · simp [hpme]
        · have hpmf : pairMatches connection e = false := by
            revert hpme
            cases pairMatches connection e <;> simp
          have hne : e.id ≠ ex.id := by
            intro heq3
            have : e = ex := hid e he heq3
            subst this
            rw [hex_pm] at hpmf
            cases hpmf
          simp [hpmf, bne_iff_ne, hne]

/-- Witness for the amended C2 theorem: connecting from a port that already
has one outgoing edge replaces it. -/
theorem onConnect_unique_pair_amended_witness :
    (onConnect ⟨"A", "C", none, none⟩ "e2" [⟨"e1", "A", "B", none, none⟩]).filter
        (pairMatches ⟨"A", "C", none, none⟩) = [connEdge ⟨"A", "C", none, none⟩ "e2"] ∧
    (onConnect ⟨"A", "C", none, none⟩ "e2" [⟨"e1", "A", "B", none, none⟩]).filter
        (fun e => !(pairMatches ⟨"A", "C", none, none⟩ e)) =
      [(⟨"e1", "A", "B", none, none⟩ : REdge)].filter
        (fun e => !(pairMatches ⟨"A", "C", none, none⟩ e)) :=
  onConnect_unique_pair_amended [⟨"e1", "A", "B", none, none⟩] ⟨"A", "C", none, none⟩ "e2"
    (by decide) (by decide)

lemma isNullV_iff (v : JVal) : isNullV v = true ↔ v = .null := by
  cases v <;> simp [isNullV]

lemma isNumV_iff (o : Option JVal) : isNumV o = true ↔ ∃ x, o = some (.num x) := by
  cases o with
  | none => simp [isNumV]
  | some v => cases v <;> simp [isNumV]

lemma posDataOk_iff (n : JVal) :
    (truthyO (getF n "position") = true ∧ posDataOk n = true) ↔
      (∃ fs, getF n "position" = some (.obj fs) ∧
        (∃ x, lookupF fs "x" = some (.num x)) ∧ (∃ y, lookupF fs "y" = some (.num y))) := by
  unfold posDataOk
  cases hp : getF n "position" with
  | none => simp [truthyO]
  | some p =>
      cases p <;>
        simp [truthyO, JVal.truthy, JVal.typeofObject, getF, isNumV_iff,
          Bool.and_eq_true]

lemma checkNode_eq_none_aux (i : Nat) (n : JVal) :
    checkNode i n = none ↔
      (isNullV n = false ∧ (truthyO (getF n "id") && truthyO (getF n "type") &&
        truthyO (getF n "position")) = true ∧ posDataOk n = true) := by
  unfold checkNode
  cases hnull : isNullV n with
  | true => simp
  | false =>
      cases hABC : (truthyO (getF n "id") && truthyO (getF n "type") &&
          truthyO (getF n "position")) with
      | false => simp
      | true =>
          cases hpos : posDataOk n with
          | false => simp
          | true => simp

lemma not_null_of_truthy_id (n : JVal) (hA : truthyO (getF n "id") = true) :
    isNullV n = false := by
  cases n with
  | null => simp [getF, truthyO] at hA
  | bool b => rfl
  | num x => rfl
  | str s => rfl
  | arr xs => rfl
  | obj fs => rfl

lemma checkNode_none_iff (i : Nat) (n : JVal) : checkNode i n = none ↔ specNodeOk n := by
  rw [checkNode_eq_none_aux]
  constructor
  · rintro ⟨hnull, hABC, hpos⟩
    obtain ⟨hAB, hC⟩ := (Bool.and_eq_true _ _).mp hABC
    obtain ⟨hA, hB⟩ := (Bool.and_eq_true _ _).mp hAB
    exact ⟨hA, hB, (posDataOk_iff n).mp ⟨hC, hpos⟩⟩
  · rintro ⟨hA, hB, hpos⟩
    obtain ⟨hC, hok⟩ := (posDataOk_iff n).mpr hpos
    exact ⟨not_null_of_truthy_id n hA, by simp [hA, hB, hC], hok⟩

lemma checkEdge_eq_none_aux (i : Nat) (e : JVal) :
    checkEdge i e = none ↔
      (isNullV e = false ∧ (truthyO (getF e "id") && truthyO (getF e "source") &&
        truthyO (getF e "target")) = true) := by
  unfold checkEdge
  cases hnull : isNullV e with
  | true => simp
  | false =>
      cases hABC : (truthyO (getF e "id") && truthyO (getF e "source") &&
          truthyO (getF e "target")) with
      | false => simp
      | true => simp

lemma checkEdge_none_iff (i : Nat) (e : JVal) : checkEdge i e = none ↔ specEdgeOk e := by
  rw [checkEdge_eq_none_aux]
  constructor
  · rintro ⟨hnull, hABC⟩
    obtain ⟨hAB, hC⟩ := (Bool.and_eq_true _ _).mp hABC
    obtain ⟨hA, hB⟩ := (Bool.and_eq_true _ _).mp hAB
    exact ⟨hA, hB, hC⟩
  · rintro ⟨hA, hB, hC⟩
    exact ⟨not_null_of_truthy_id e hA, by simp [hA, hB, hC]⟩

lemma checkNode_some_forms (i : Nat) (n : JVal) (e : String) (h : checkNode i n = some e) :
    ¬ specNodeOk n ∧
      (e = nodeMissingMsg i ∨ e = nodePosMsg i ∨ (n = JVal.null ∧ e = nullAccessMsg)) := by
  have hne : checkNode i n ≠ none := by
    rw [h]
    simp
  refine ⟨fun hok => hne ((checkNode_none_iff i n).mpr hok), ?_⟩
  revert h
  unfold checkNode
  cases hnull : isNullV n with
  | true =>
      intro h
      right
      right
      refine ⟨(isNullV_iff n).mp hnull, ?_⟩
      simpa using h.symm
  | false =>
      cases hABC : (truthyO (getF n "id") && truthyO (getF n "type") &&
          truthyO (getF n "position")) with
      | false =>
          intro h
          left
          simpa using h.symm
      | true =>
          cases hpos : posDataOk n with
          | false =>
              intro h
              right
              left
              simpa using h.symm
          | true =>
              intro h
              simp at h

lemma checkEdge_some_forms (i : Nat) (x : JVal) (e : String) (h : checkEdge i x = some e) :
    ¬ specEdgeOk x ∧ (e = edgeMissingMsg i ∨ (x = JVal.null ∧ e = nullAccessMsg)) := by
  have hne : checkEdge i x ≠ none := by
    rw [h]
    simp
  refine ⟨fun hok => hne ((checkEdge_none_iff i x).mpr hok), ?_⟩
  revert h
  unfold checkEdge
  cases hnull : isNullV x with
  | true =>
      intro h
      right
      refine ⟨(isNullV_iff x).mp hnull, ?_⟩
      simpa using h.symm
  | false =>
      cases hABC : (truthyO (getF x "id") && truthyO (getF x "source") &&
          truthyO (getF x "target")) with
      | false =>
          intro h
          left
          simpa using h.symm
      | true =>
          intro h
          simp at h

lemma scanErr_eq_none_iff (check : Nat → JVal → Option String) (P : JVal → Prop)
    (hch : ∀ i x, check i x = none ↔ P x) (i : Nat) (xs : List JVal) :
    scanErr check i xs = none ↔ ∀ x ∈ xs, P x := by
  induction xs generalizing i with
  | nil => simp [scanErr]
  | cons x rest ih =>
      unfold scanErr
      cases hc : check i x with
      | some e =>
          have hnx : ¬ P x := fun hp => by
            rw [(hch i x).mpr hp] at hc
            cases hc
          simp [List.forall_mem_cons, hnx]
      | none =>
          have hPx := (hch i x).mp hc
          simp [List.forall_mem_cons, hPx, ih]

lemma scanErr_eq_some_first (check : Nat → JVal → Option String) :
    ∀ (xs : List JVal) (i : Nat) (e : String), scanErr check i xs = some e →
      ∃ k, ∃ hk : k < xs.length,
        (∀ j, ∀ hj : j < k, check (i + j) (xs.get ⟨j, lt_trans hj hk⟩) = none) ∧
        check (i + k) (xs.get ⟨k, hk⟩) = some e := by
  intro xs
  induction xs with
  | nil =>
      intro i e h
      simp [scanErr] at h
  | cons x rest ih =>
      intro i e h
      unfold scanErr at h
      cases hc : check i x with
      | some e' =>
          rw [hc] at h
          have h2 : some e' = some e := h
          have he : e' = e := by injection h2
          refine ⟨0, by simp, ?_, ?_⟩
          · intro j hj
            exact absurd hj (Nat.not_lt_zero j)
          · simpa [he] using hc
      | none =>
          rw [hc] at h
          obtain ⟨k, hk, hprev, hcur⟩ := ih (i + 1) e h
          refine ⟨k + 1, Nat.succ_lt_succ hk, ?_, ?_⟩
          · intro j hj
            cases j with
            | zero => simpa using hc
            | succ j' =>
                have hj' : j' < k := Nat.lt_of_succ_lt_succ hj
                have hstep := hprev j' hj'
                have harith : i + (j' + 1) = (i + 1) + j' := by omega
                rw [harith]
                exact hstep
          · have harith : i + (k + 1) = (i + 1) + k := by omega
            rw [harith]
            exact hcur

lemma validateItems_isValid_iff (ns es : List JVal) :
    (validateItems ns es).isValid = true ↔
      ((∀ n ∈ ns, specNodeOk n) ∧ (∀ e ∈ es, specEdgeOk e)) := by
  unfold validateItems
  cases hs1 : scanErr checkNode 0 ns with
  | some e =>
      have hnot : ¬ ∀ n ∈ ns, specNodeOk n := fun hall => by
        rw [(scanErr_eq_none_iff checkNode specNodeOk checkNode_none_iff 0 ns).mpr hall] at hs1
        cases hs1
      simp [hnot]
  | none =>
      have h1 : ∀ n ∈ ns, specNodeOk n :=
        (scanErr_eq_none_iff checkNode specNodeOk checkNode_none_iff 0 ns).mp hs1
      cases hs2 : scanErr checkEdge 0 es with
      | some e =>
          have hnot : ¬ ∀ x ∈ es, specEdgeOk x := fun hall => by
            rw [(scanErr_eq_none_iff checkEdge specEdgeOk checkEdge_none_iff 0 es).mpr hall] at hs2
            cases hs2
          simp [h1, hnot]
      | none =>
          have h2 : ∀ x ∈ es, specEdgeOk x :=
            (scanErr_eq_none_iff checkEdge specEdgeOk checkEdge_none_iff 0 es).mp hs2
          simp only [iff_true_intro h1, iff_true_intro h2, and_self, iff_true]

lemma validateBody_isValid (nv ev : Option JVal)
    (h : (validateBody nv ev).isValid = true) :
    ∃ ns es, nv = some (.arr ns) ∧ ev = some (.arr es) ∧
      (validateItems ns es).isValid = true := by
  cases nv with
  | none => simp [validateBody] at h
  | some n0 =>
      cases n0
      case arr ns =>
        cases ev with
        | none => simp [validateBody] at h
        | some e0 =>
            cases e0
            case arr es => exact ⟨ns, es, rfl, rfl, h⟩
            all_goals simp [validateBody] at h
      all_goals simp [validateBody] at h

lemma validateFlowData_arrays (fs : List (String × JVal)) (ns es : List JVal)
    (hn : lookupF fs "nodes" = some (.arr ns)) (he : lookupF fs "edges" = some (.arr es)) :
    validateFlowData (.obj fs) = validateItems ns es := by
  rw [validateFlowData_obj]
  show validateBody (lookupF fs "nodes") (lookupF fs "edges") = validateItems ns es
  rw [hn, he]
  rfl

/-- C9 counterexample: on a flow whose first node entry is the JSON value
`null`, validation fails but the reported error is the generic caught
TypeError message, which names no node index and no missing fields —
contrary to the claim that every failure report names the first offending
node or edge index together with its missing fields. -/
theorem validateFlowData_null_node_report_cex :
    (validateFlowData (.obj [("nodes", .arr [.null]), ("edges", .arr [])])).isValid = false ∧
    (validateFlowData (.obj [("nodes", .arr [.null]), ("edges", .arr [])])).error =
      some nullAccessMsg ∧
    ¬ (validateFlowData (.obj [("nodes", .arr [.null]), ("edges", .arr [])])).error =
      some (nodeMissingMsg 0) ∧
    ¬ (validateFlowData (.obj [("nodes", .arr [.null]), ("edges", .arr [])])).error =
      some (nodePosMsg 0) ∧
    ¬ (validateFlowData (.obj [("nodes", .arr [.null]), ("edges", .arr [])])).error =
      some (edgeMissingMsg 0) := by
  refine ⟨rfl, rfl, ?_, ?_, ?_⟩ <;> decide

/-- C9 (amended): `validateFlowData` reports a flow valid exactly when it is
a non-null keyed structure whose `nodes` and `edges` are sequences, every
node has a non-empty id, a type and a position object with numeric x and y,
and every edge has a non-empty id, source and target; on failure (when both
fields are sequences) the error reports only the first offending node or
edge index — nodes checked in order before edges — via that index's
missing-required-fields or invalid-position message, except that a `null`
entry produces the generic caught-TypeError message naming no index. -/
theorem validateFlowData_valid_iff_and_first_report :
    (∀ v : JVal, (validateFlowData v).isValid = true ↔ flowValidSpec v) ∧
    (∀ (fs : List (String × JVal)) (ns es : List JVal),
      lookupF fs "nodes" = some (.arr ns) → lookupF fs "edges" = some (.arr es) →
      (validateFlowData (.obj fs)).isValid = false →
      (∃ k, ∃ hk : k < ns.length,
        (∀ j, ∀ hj : j < k, specNodeOk (ns.get ⟨j, lt_trans hj hk⟩)) ∧
        ¬ specNodeOk (ns.get ⟨k, hk⟩) ∧
        ((validateFlowData (.obj fs)).error = some (nodeMissingMsg k) ∨
         (validateFlowData (.obj fs)).error = some (nodePosMsg k) ∨
         (ns.get ⟨k, hk⟩ = JVal.null ∧
           (validateFlowData (.obj fs)).error = some nullAccessMsg))) ∨
      ((∀ n ∈ ns, specNodeOk n) ∧
       ∃ k, ∃ hk : k < es.length,
        (∀ j, ∀ hj : j < k, specEdgeOk (es.get ⟨j, lt_trans hj hk⟩)) ∧
        ¬ specEdgeOk (es.get ⟨k, hk⟩) ∧
        ((validateFlowData (.obj fs)).error = some (edgeMissingMsg k) ∨
         (es.get ⟨k, hk⟩ = JVal.null ∧
           (validateFlowData (.obj fs)).error = some nullAccessMsg)))) := by
  constructor
  · intro v
    constructor
    · intro h
      obtain ⟨fs, rfl⟩ := valid_is_obj v h
      rw [validateFlowData_obj] at h
      obtain ⟨ns, es, hn, he, hitems⟩ := validateBody_isValid _ _ h
      obtain ⟨hns, hes⟩ := (validateItems_isValid_iff ns es).mp hitems
      exact ⟨fs, ns, es, rfl, hn, he, hns, hes⟩
    · rintro ⟨fs, ns, es, rfl, hn, he, hns, hes⟩
      rw [validateFlowData_arrays fs ns es hn he]
      exact (validateItems_isValid_iff ns es).mpr ⟨hns, hes⟩
  · intro fs ns es hn he hinv
    have hVE : validateFlowData (.obj fs) = validateItems ns es :=
      validateFlowData_arrays fs ns es hn he
    rw [hVE] at hinv
    rw [hVE]
    unfold validateItems at hinv ⊢
    cases hs1 : scanErr checkNode 0 ns with
    | some e =>
        left
        obtain ⟨k, hk, hprev, hcur⟩ := scanErr_eq_some_first checkNode ns 0 e hs1
        rw [Nat.zero_add] at hcur
        obtain ⟨hnotok, hforms⟩ := checkNode_some_forms k (ns.get ⟨k, hk⟩) e hcur
        refine ⟨k, hk, ?_, hnotok, ?_⟩
        · intro j hj
          have hstep := hprev j hj
          rw [Nat.zero_add] at hstep
          exact (checkNode_none_iff _ _).mp hstep
        · rcases hforms with h1 | h1 | ⟨h1, h2⟩
          · left
            simp [h1]
          · right
            left
            simp [h1]
          · right
            right
            exact ⟨h1, by simp [h2]⟩
    | none =>
        right
        have hns : ∀ n ∈ ns, specNodeOk n :=
          (scanErr_eq_none_iff checkNode specNodeOk checkNode_none_iff 0 ns).mp hs1
        refine ⟨hns, ?_⟩
        rw [hs1] at hinv
        have hinv2 : ((match scanErr checkEdge 0 es with
            | some e => (⟨false, some e⟩ : VResult)
            | none => ⟨true, none⟩) : VResult).isValid = false := hinv
        cases hs2 : scanErr checkEdge 0 es with
        | none =>
            rw [hs2] at hinv2
            simp at hinv2
        | some e =>
            obtain ⟨k, hk, hprev, hcur⟩ := scanErr_eq_some_first checkEdge es 0 e hs2
            rw [Nat.zero_add] at hcur
            obtain ⟨hnotok, hforms⟩ := checkEdge_some_forms k (es.get ⟨k, hk⟩) e hcur
            refine ⟨k, hk, ?_, hnotok, ?_⟩
            · intro j hj
              have hstep := hprev j hj
              rw [Nat.zero_add] at hstep
              exact (checkEdge_none_iff _ _).mp hstep
            · rcases hforms with h1 | ⟨h1, h2⟩
              · left
                simp [h1]
              · right
                exact ⟨h1, by simp [h2]⟩

/-- Witness for the amended C9 theorem at a concrete invalid flow whose
first node entry is a number: the first-offending-index report is the
missing-fields message at index 0. -/
theorem validateFlowData_valid_iff_and_first_report_witness :
    (∃ k, ∃ hk : k < ([JVal.num 3] : List JVal).length,
      (∀ j, ∀ hj : j < k, specNodeOk (([JVal.num 3] : List JVal).get ⟨j, lt_trans hj hk⟩)) ∧
      ¬ specNodeOk (([JVal.num 3] : List JVal).get ⟨k, hk⟩) ∧
      ((validateFlowData (.obj [("nodes", .arr [.num 3]), ("edges", .arr [])])).error =
          some (nodeMissingMsg k) ∨
       (validateFlowData (.obj [("nodes", .arr [.num 3]), ("edges", .arr [])])).error =
          some (nodePosMsg k) ∨
       (([JVal.num 3] : List JVal).get ⟨k, hk⟩ = JVal.null ∧
         (validateFlowData (.obj [("nodes", .arr [.num 3]), ("edges", .arr [])])).error =
            some nullAccessMsg))) ∨
    ((∀ n ∈ ([JVal.num 3] : List JVal), specNodeOk n) ∧
     ∃ k, ∃ hk : k < ([] : List JVal).length,
      (∀ j, ∀ hj : j < k, specEdgeOk (([] : List JVal).get ⟨j, lt_trans hj hk⟩)) ∧
      ¬ specEdgeOk (([] : List JVal).get ⟨k, hk⟩) ∧
      ((validateFlowData (.obj [("nodes", .arr [.num 3]), ("edges", .arr [])])).error =
          some (edgeMissingMsg k) ∨
       (([] : List JVal).get ⟨k, hk⟩ = JVal.null ∧
         (validateFlowData (.obj [("nodes", .arr [.num 3]), ("edges", .arr [])])).error =
            some nullAccessMsg))) :=
  validateFlowData_valid_iff_and_first_report.2
    [("nodes", .arr [.num 3]), ("edges", .arr [])] [.num 3] [] rfl rfl rfl
